import Mathlib

/-!
Verification of the LoRaWAN gateway uplink pipeline (package gateway,
parseDataUplink and its helpers) against its natural-language specification.

Bytes are modelled as natural numbers, byte slices as lists.  Go code that can
fail at run time (out-of-range indexing or slicing, slice-to-array conversion)
is embedded in the GoRes monad, whose `panicked` constructor records a runtime
panic.  External collaborators that are not part of the translated unit (the
filesystem read in decodePayload, the otto interpreter session, and the
lorawan-stack crypto library) enter as explicit function parameters or as
definitions modelled from the specification, so that theorems can quantify
over them.
-/

/-- Result of running Go code that may panic at run time. -/
inductive GoRes (α : Type) where
  | ok : α → GoRes α
  | panicked : String → GoRes α
deriving Repr, DecidableEq

/-- Sequencing of Go computations: a panic propagates, skipping the rest. -/
def GoRes.bind {α β : Type} : GoRes α → (α → GoRes β) → GoRes β
  | .ok a, f => f a
  | .panicked m, _ => .panicked m

instance : Monad GoRes where
  pure := GoRes.ok
  bind := GoRes.bind

@[simp] theorem GoRes.bind_ok {α β : Type} (a : α) (f : α → GoRes β) :
    (GoRes.ok a : GoRes α) >>= f = f a := rfl

@[simp] theorem GoRes.bind_panicked {α β : Type} (m : String) (f : α → GoRes β) :
    (GoRes.panicked m : GoRes α) >>= f = .panicked m := rfl

@[simp] theorem GoRes.pure_eq {α : Type} (a : α) : (pure a : GoRes α) = .ok a := rfl

/-- Go expression s[i] on a byte slice: panics when i is out of range. -/
def goIndex (l : List Nat) (i : Nat) : GoRes Nat :=
  if h : i < l.length then .ok (l.get ⟨i, h⟩)
  else .panicked "runtime error: index out of range"

/-- Go expression s[lo:hi] with nonnegative bounds: panics unless lo ≤ hi ≤ len(s). -/
def goSlice (l : List Nat) (lo hi : Nat) : GoRes (List Nat) :=
  if lo ≤ hi ∧ hi ≤ l.length then .ok ((l.drop lo).take (hi - lo))
  else .panicked "runtime error: slice bounds out of range"

/-- Go expression s[lo:hi] where hi is an int expression that may be negative
(len(phyPayload)-4 in the source). -/
def goSliceI (l : List Nat) (lo : Nat) (hi : Int) : GoRes (List Nat) :=
  if (lo : Int) ≤ hi ∧ hi ≤ (l.length : Int) then .ok ((l.drop lo).take (hi.toNat - lo))
  else .panicked "runtime error: slice bounds out of range"

/-- Go conversion types.AES128Key(b) of a byte slice to the 16-byte array type:
panics when the slice is shorter than 16 bytes, otherwise keeps the first 16. -/
def goAES128Key (l : List Nat) : GoRes (List Nat) :=
  if 16 ≤ l.length then .ok (l.take 16)
  else .panicked "runtime error: cannot convert slice with length to array"

/-- binary.LittleEndian.Uint16 applied to the 2-byte slice phyPayload[6:8]. -/
def leUint16 (b : List Nat) : Nat := b.getD 0 0 + 256 * b.getD 1 0

/-- Modelled from the spec: reverseByteArray is repository code that is not
under src (only its caller is); the spec states that the device address bytes
are reversed from on-wire least-significant-byte-first order to
most-significant-byte-first order. -/
def reverseByteArray (l : List Nat) : List Nat := l.reverse

/-- A registered device (node.Node restricted to the fields the pipeline reads:
Name().Name, Addr, AppSKey, DecoderPath). -/
structure Device where
  name : String
  addr : List Nat
  appSKey : List Nat
  decoderPath : String
deriving Repr, DecidableEq

/-- matchDeviceAddr: scan the registry for a device whose Addr equals the
reordered address, byte for byte; a miss is the error value, modelled as none. -/
def matchDeviceAddr (devAddr : List Nat) (devices : List Device) : Option Device :=
  devices.find? (fun dev => devAddr == dev.addr)

/-- Value exported from the otto interpreter to Go (val.Export); undef stands
for the nil interface value. -/
inductive JSValue where
  | undef : JSValue
  | num : Int → JSValue
  | str : String → JSValue
  | list : List JSValue → JSValue
  | obj : List (String × JSValue) → JSValue

/-- Observable outcome of one whole otto session (vm.Set of the variables,
vm.Run of the script, val.Export): a value, an error returned by the
interpreter, or a runtime panic escaping it. -/
inductive VMOutcome where
  | value : JSValue → VMOutcome
  | runErr : String → VMOutcome
  | panicked : String → VMOutcome

/-- The interpreter session as a parameter: script text and injected variable
bindings to outcome. -/
abbrev VMRun := String → List (String × JSValue) → VMOutcome

/-- The variable bindings convertBinaryToMap installs before running the script. -/
def decoderVars (fPort : Nat) (b : List Nat) : List (String × JSValue) :=
  [("fPort", JSValue.num fPort), ("bytes", JSValue.list (b.map (fun x => JSValue.num x)))]

/-- Body of executeDecoder without the deferred recover: the session outcome
mapped to the Go return pair (out, err), where an interpreter panic is still a
panic. -/
def executeDecoderBody (vmRun : VMRun) (script : String)
    (vars : List (String × JSValue)) : GoRes (Option JSValue × Option String) :=
  match vmRun script vars with
  | .value v => .ok (some v, none)
  | .runErr e => .ok (none, some e)
  | .panicked m => .panicked m

/-- The deferred recover in executeDecoder: a caught panic becomes the error
return fmt.Errorf of the caught value; the named return out keeps its zero
value nil. -/
def recoverToError : GoRes (Option JSValue × Option String) → Option JSValue × Option String
  | .ok r => r
  | .panicked m => (none, some m)

/-- executeDecoder: run the interpreter session under the deferred recover. -/
def executeDecoder (vmRun : VMRun) (script : String)
    (vars : List (String × JSValue)) : Option JSValue × Option String :=
  recoverToError (executeDecoderBody vmRun script vars)

/-- The wrapper convertBinaryToMap appends to the decoder script text. -/
def decodeWrapper : String := "\n\nDecode(fPort, bytes);\n"

/-- convertBinaryToMap: wrap the script, bind fPort and bytes, execute, and
check that the exported result is a string-keyed map; any other shape yields
an empty map and an error. -/
def convertBinaryToMap (vmRun : VMRun) (fPort : Nat) (decodeScript : String)
    (b : List Nat) : Option (List (String × JSValue)) × Option String :=
  let script := decodeScript ++ decodeWrapper
  match executeDecoder vmRun script (decoderVars fPort b) with
  | (_, some e) => (none, some e)
  | (v, none) =>
    match v with
    | some (JSValue.obj m) => (some m, none)
    | _ => (some [], some "decoder returned unexpected data type")

/-- decodePayload: read the script file (the filesystem is the parameter fs),
then convert.  Faithful to the source: the error returned by
convertBinaryToMap is assigned and then discarded, a nil error is returned in
its place. -/
def decodePayload (fs : String → Option String) (vmRun : VMRun) (fPort : Nat)
    (path : String) (data : List Nat) :
    Option (List (String × JSValue)) × Option String :=
  match fs path with
  | none => (some [], some "file read error")
  | some fileContent =>
    let rm := convertBinaryToMap vmRun fPort fileContent data
    (rm.1, none)

/-- parseDataUplink: the uplink pipeline, translated statement by statement
from the source.  The filesystem, the interpreter session and the external
crypto.DecryptUplink routine are parameters; the return value models the Go
triple (device name, readings map or nil, error or nil), inside GoRes because
the body indexes and slices the raw frame without bounds checks.
types.MustDevAddr is the identity here: its argument is always the 4-byte
reversed slice. -/
def parseDataUplink (fs : String → Option String) (vmRun : VMRun)
    (decryptFn : List Nat → List Nat → Nat → List Nat → Except String (List Nat))
    (devices : List Device) (phyPayload : List Nat) :
    GoRes (String × Option (List (String × JSValue)) × Option String) := do
  let devAddr ← goSlice phyPayload 1 5
  let devAddrBE := reverseByteArray devAddr
  match matchDeviceAddr devAddrBE devices with
  | none => return ("", some [], none)
  | some device => do
    let fctrl ← goIndex phyPayload 5
    let foptsLength := fctrl % 16
    let cntBytes ← goSlice phyPayload 6 8
    let frameCnt := leUint16 cntBytes
    let _ ← (if foptsLength ≠ 0 then goSlice phyPayload 8 (8 + foptsLength) else pure [])
    let fPort ← goIndex phyPayload (8 + foptsLength)
    let framePayload ← goSliceI phyPayload (8 + foptsLength + 1) ((phyPayload.length : Int) - 4)
    let key ← goAES128Key device.appSKey
    match decryptFn key devAddrBE frameCnt framePayload with
    | .error e => return ("", some [], some ("error while decrypting uplink message: " ++ e))
    | .ok decryptedPayload =>
      match decodePayload fs vmRun fPort device.decoderPath decryptedPayload with
      | (_, some e) => return ("", some [], some ("Error decoding payload: " ++ e))
      | (readings, none) => return (device.name, readings, none)

/-- A registered device used by several concrete evaluations below. -/
def demoDevice : Device :=
  { name := "node1", addr := [4, 3, 2, 1], appSKey := List.replicate 16 0,
    decoderPath := "decoder.js" }

/-- A single-block cipher, parameter of the keystream construction: key and
16-byte input block to 16-byte output block. -/
abbrev BlockCipher := List Nat → List Nat → List Nat

/-- Modelled from the spec: the counter block of the external lorawan-stack
crypto library (not in src).  Each 16-byte block encodes a fixed direction tag
(uplink), the device address, the frame counter and an incrementing block
index. -/
def aBlock (addr : List Nat) (frameCnt : Nat) (i : Nat) : List Nat :=
  [1, 0, 0, 0, 0, 0] ++ addr ++
    [frameCnt % 256, frameCnt / 256 % 256, frameCnt / 65536 % 256,
      frameCnt / 16777216 % 256] ++ [0, i % 256]

/-- Modelled from the spec: the keystream covering len bytes, obtained by
enciphering the counter blocks in single-block mode, concatenating and
truncating to len. -/
def keystream (E : BlockCipher) (key addr : List Nat) (frameCnt len : Nat) : List Nat :=
  (((List.range ((len + 15) / 16)).map
    (fun i => E key (aBlock addr frameCnt (i + 1)))).flatten).take len

/-- Modelled from the spec: crypto.DecryptUplink of the external lorawan-stack
library (not in src).  It fails only on a malformed key length; otherwise it
XORs the keystream byte for byte against the ciphertext. -/
def DecryptUplink (E : BlockCipher) (key addr : List Nat) (frameCnt : Nat)
    (ct : List Nat) : Except String (List Nat) :=
  if key.length = 16 then
    .ok (List.zipWith (fun a b => a ^^^ b) (keystream E key addr frameCnt ct.length) ct)
  else .error "invalid key length"

/-- Modelled from the spec: the cooperating uplink-encryption routine, the same
keystream XORed against the plaintext. -/
def EncryptUplink (E : BlockCipher) (key addr : List Nat) (frameCnt : Nat)
    (pt : List Nat) : Except String (List Nat) :=
  if key.length = 16 then
    .ok (List.zipWith (fun a b => a ^^^ b) (keystream E key addr frameCnt pt.length) pt)
  else .error "invalid key length"

/-- Abort effect of the function the watchdog goroutine sends on vm.Interrupt.
In the source that function evaluates errors.New of the timeout message and
discards the result; it returns normally instead of panicking, so its effect
is none.  (some msg models a handler that panics with msg, the conventional
otto usage that actually aborts the run.) -/
def watchdogInterruptFn : Option String := none

/-- The handler the watchdog was evidently meant to send: one that panics with
the timeout error. -/
def panickingTimeoutFn : Option String := some "execution timeout"

/-- Outcome of observing an otto run of a nonterminating script for finitely
many interpreter steps. -/
inductive LoopOutcome where
  | aborted : String → LoopOutcome
  | running : LoopOutcome
deriving Repr, DecidableEq

/-- Cooperative-interruption semantics of otto executing an infinite loop:
t counts the steps until the watchdog's function arrives on the interrupt
channel, fuel the loop iterations observed.  At every iteration the
interpreter checks the channel; a pending function is invoked once, and the
run aborts exactly when that function panics, otherwise the loop resumes with
the channel drained. -/
def ottoRunLoop : Option String → Nat → Nat → LoopOutcome
  | _, _, 0 => .running
  | handler, 0, fuel + 1 =>
    match handler with
    | some m => .aborted m
    | none => ottoRunLoop none 0 fuel
  | handler, t + 1, fuel + 1 => ottoRunLoop handler t fuel

/-- Helper: whenever the raw frame has at least 5 bytes and the reversed
address bytes 1 to 4 match no registered device, the pipeline returns the
empty readings map with a nil error, whatever the filesystem, interpreter and
decryption routine are. -/
theorem unknown_device_result (fs : String → Option String) (vmRun : VMRun)
    (decryptFn : List Nat → List Nat → Nat → List Nat → Except String (List Nat))
    (devices : List Device) (payload : List Nat)
    (h5 : 5 ≤ payload.length)
    (hnone : matchDeviceAddr (reverseByteArray ((payload.drop 1).take 4)) devices = none) :
    parseDataUplink fs vmRun decryptFn devices payload = .ok ("", some [], none) := by
  have hs : goSlice payload 1 5 = .ok ((payload.drop 1).take 4) := by
    unfold goSlice
    rw [if_pos ⟨by omega, h5⟩]
  unfold parseDataUplink
  rw [hs]
  simp only [GoRes.bind_ok]
  rw [hnone]
  rfl

/-- C1: for an uplink frame addressed to the registered device, with a readable
decoder script whose execution yields the non-mapping value 3, the decode step
fails inside convertBinaryToMap, yet parseDataUplink returns a success triple
(device name, readings, nil error): decodePayload discards the error, so the
caller sees a success result, contradicting the claim that a typed decode
error is always returned. -/
theorem c1_decode_failure_returned_as_success :
    convertBinaryToMap (fun _ _ => .value (.num 3)) 1 "decoder script text" [9] =
      (some [], some "decoder returned unexpected data type") ∧
    parseDataUplink (fun _ => some "decoder script text") (fun _ _ => .value (.num 3))
      (fun _ _ _ ct => .ok ct) [demoDevice]
      [64, 1, 2, 3, 4, 0, 5, 0, 1, 9, 0, 0, 0, 0] =
      .ok ("node1", some [], none) := by
  constructor <;> rfl

/-- C2: parseDataUplink performs no length validation at all.  On the empty
frame it panics slicing phyPayload[1:5] before anything else runs, and on a
5-byte frame addressed to a registered device it panics indexing
phyPayload[5]; no MalformedFrame error is ever produced. -/
theorem c2_short_frame_panics (fs : String → Option String) (vmRun : VMRun)
    (decryptFn : List Nat → List Nat → Nat → List Nat → Except String (List Nat))
    (devices : List Device) :
    parseDataUplink fs vmRun decryptFn devices [] =
      .panicked "runtime error: slice bounds out of range" ∧
    parseDataUplink fs vmRun decryptFn [demoDevice] [64, 1, 2, 3, 4] =
      .panicked "runtime error: index out of range" := by
  constructor <;> rfl

/-- C3: an uplink frame whose reversed device-address bytes 1 to 4 match no
registry entry is silently dropped: parseDataUplink returns the empty readings
map and a nil error, and since the result is the same for every filesystem,
interpreter session and decryption routine, no decryption and no decoding is
attempted. -/
theorem c3_unknown_device_dropped (fs : String → Option String) (vmRun : VMRun)
    (decryptFn : List Nat → List Nat → Nat → List Nat → Except String (List Nat))
    (devices : List Device) (payload : List Nat)
    (h5 : 5 ≤ payload.length)
    (hnone : matchDeviceAddr (reverseByteArray ((payload.drop 1).take 4)) devices = none) :
    parseDataUplink fs vmRun decryptFn devices payload = .ok ("", some [], none) :=
  unknown_device_result fs vmRun decryptFn devices payload h5 hnone

/-- C3 witness: a 5-byte frame against an empty registry is dropped with an
empty map and a nil error. -/
theorem c3_unknown_device_dropped_witness :
    parseDataUplink (fun _ => none) (fun _ _ => .runErr "e") (fun _ _ _ _ => .error "e")
      [] [0, 1, 2, 3, 4] = .ok ("", some [], none) :=
  c3_unknown_device_dropped (fun _ => none) (fun _ _ => .runErr "e")
    (fun _ _ _ _ => .error "e") [] [0, 1, 2, 3, 4] (by decide) (by rfl)

/-- C10: the registry lookup runs before any frame-length or structure
validation: a frame of at least 5 bytes whose reversed address bytes match no
registered device yields the empty map and a nil error even when it is
shorter than the 12-byte minimum valid frame length. -/
theorem c10_lookup_precedes_validation (fs : String → Option String) (vmRun : VMRun)
    (decryptFn : List Nat → List Nat → Nat → List Nat → Except String (List Nat))
    (devices : List Device) (payload : List Nat)
    (h5 : 5 ≤ payload.length) (_hlt : payload.length < 12)
    (hnone : matchDeviceAddr (reverseByteArray ((payload.drop 1).take 4)) devices = none) :
    parseDataUplink fs vmRun decryptFn devices payload = .ok ("", some [], none) :=
  unknown_device_result fs vmRun decryptFn devices payload h5 hnone

/-- C10 witness: a 5-byte frame, well below the 12-byte minimum, addressed to
nobody in a nonempty registry, is dropped without an error. -/
theorem c10_lookup_precedes_validation_witness :
    parseDataUplink (fun _ => none) (fun _ _ => .runErr "e") (fun _ _ _ _ => .error "e")
      [demoDevice] [9, 9, 9, 9, 9] = .ok ("", some [], none) :=
  c10_lookup_precedes_validation (fun _ => none) (fun _ _ => .runErr "e")
    (fun _ _ _ _ => .error "e") [demoDevice] [9, 9, 9, 9, 9]
    (by decide) (by decide) (by rfl)

/-- C4: with the interrupt function the watchdog actually sends, which calls
errors.New and discards the result without panicking, the infinite-loop script
is never aborted: whatever step the interrupt arrives at and however many
iterations are observed, the run is still going, so vm.Run never returns and
the caller hangs.  Had the function panicked with the timeout error, the run
would abort as soon as the interrupt is delivered. -/
theorem c4_watchdog_interrupt_never_aborts :
    (∀ t fuel, ottoRunLoop watchdogInterruptFn t fuel = .running) ∧
    (∀ fuel, ottoRunLoop panickingTimeoutFn 0 (fuel + 1) = .aborted "execution timeout") := by
  constructor
  · intro t fuel
    induction fuel generalizing t with
    | zero => cases t <;> rfl
    | succ n ih => cases t with
      | zero => simpa [ottoRunLoop, watchdogInterruptFn] using ih 0
      | succ t => simpa [ottoRunLoop] using ih t
  · intro fuel
    rfl

/-- C5: whenever the interpreter session yields a value that is not a
string-keyed mapping (a number, a string, a list, or the undefined value),
convertBinaryToMap returns the empty readings map together with the
unexpected-data-type error. -/
theorem c5_nonmap_value_rejected (fPort : Nat) (script : String) (b : List Nat)
    (v : JSValue) (hv : ∀ m, v ≠ JSValue.obj m) :
    convertBinaryToMap (fun _ _ => .value v) fPort script b =
      (some [], some "decoder returned unexpected data type") := by
  cases v with
  | obj m => exact absurd rfl (hv m)
  | undef => rfl
  | num n => rfl
  | str s => rfl
  | list l => rfl

/-- C5 witness: the value 7 is not a mapping, and the conversion reports the
shape error with an empty map. -/
theorem c5_nonmap_value_rejected_witness :
    convertBinaryToMap (fun _ _ => .value (.num 7)) 1 "s" [] =
      (some [], some "decoder returned unexpected data type") :=
  c5_nonmap_value_rejected 1 "s" [] (.num 7) (fun _ h => JSValue.noConfusion h)

/-- The frame fields claim C6 says parseDataUplink extracts, written directly
at the claimed offsets over the raw frame: address is bytes 1 to 4 reversed,
options length the low 4 bits of byte 5, counter the little-endian 16-bit
value of bytes 6 and 7, port the byte at index 8 plus options length, payload
the bytes from index 9 plus options length up to the trailing 4-byte tag. -/
structure FrameFields where
  devAddrBE : List Nat
  foptsLen : Nat
  frameCnt : Nat
  fPort : Nat
  framePayload : List Nat
deriving Repr, DecidableEq

/-- Field extraction as the claim words it. -/
def specFields (p : List Nat) : FrameFields :=
  { devAddrBE := ((p.drop 1).take 4).reverse
    foptsLen := p.getD 5 0 % 16
    frameCnt := p.getD 6 0 + 256 * p.getD 7 0
    fPort := p.getD (8 + p.getD 5 0 % 16) 0
    framePayload := (p.drop (9 + p.getD 5 0 % 16)).take (p.length - 4 - (9 + p.getD 5 0 % 16)) }

/-- Interpreter session that reports back the injected variable bindings, so
the port and payload handed to the decoder become observable in the result. -/
def observeVM : VMRun := fun _ vars => .value (.obj vars)

/-- Decryption stand-in that succeeds exactly when the pipeline handed it the
address, counter and payload the claim specifies, making those three fields
observable in the result as well. -/
def observeDecrypt (p : List Nat) :
    List Nat → List Nat → Nat → List Nat → Except String (List Nat) :=
  fun _key addr cnt ct =>
    if addr = (specFields p).devAddrBE ∧ cnt = (specFields p).frameCnt ∧
        ct = (specFields p).framePayload then .ok ct
    else .error "field mismatch"

/-- Helper: flattening a list of blocks of one common length multiplies the
length. -/
theorem flatten_length_const (L : List (List Nat)) (k : Nat)
    (h : ∀ x ∈ L, x.length = k) : L.flatten.length = k * L.length := by
  induction L with
  | nil => simp
  | cons a t ih =>
    simp only [List.flatten_cons, List.length_append, List.length_cons]
    rw [h a (List.mem_cons_self a t), ih (fun x hx => h x (List.mem_cons_of_mem a hx))]
    ring

/-- Helper: when the block cipher returns 16-byte blocks, the keystream has
exactly the requested length. -/
theorem keystream_length (E : BlockCipher) (hE : ∀ k b, (E k b).length = 16)
    (key addr : List Nat) (frameCnt len : Nat) :
    (keystream E key addr frameCnt len).length = len := by
  unfold keystream
  rw [List.length_take,
    flatten_length_const _ 16 (by
      intro x hx
      obtain ⟨i, _, rfl⟩ := List.mem_map.mp hx
      exact hE key (aBlock addr frameCnt (i + 1))),
    List.length_map, List.length_range]
  omega

/-- Helper: XORing the same keystream twice restores the original bytes. -/
theorem zipWith_xor_cancel (ks xs : List Nat) (h : ks.length = xs.length) :
    List.zipWith (fun a b => a ^^^ b) ks (List.zipWith (fun a b => a ^^^ b) ks xs) = xs := by
  induction ks generalizing xs with
  | nil =>
    cases xs with
    | nil => rfl
    | cons x xs => simp at h
  | cons a t ih =>
    cases xs with
    | nil => simp at h
    | cons x xs =>
      simp only [List.zipWith_cons_cons]
      rw [ih xs (by simpa using h)]
      congr 1
      rw [← Nat.xor_assoc, Nat.xor_self, Nat.zero_xor]

/-- C7: the modelled crypto.DecryptUplink succeeds on every ciphertext once the
key has the well-formed 16-byte length: decryption can fail only on a
malformed key length, never on ciphertext content. -/
theorem c7_decrypt_total_for_16_byte_key (E : BlockCipher) (key addr : List Nat)
    (frameCnt : Nat) (hk : key.length = 16) :
    ∀ ct, ∃ pt, DecryptUplink E key addr frameCnt ct = .ok pt := by
  intro ct
  exact ⟨_, by unfold DecryptUplink; rw [if_pos hk]⟩

/-- C7 witness: a 16-byte key decrypts the 2-byte ciphertext without error. -/
theorem c7_decrypt_total_for_16_byte_key_witness :
    ∃ pt, DecryptUplink (fun _ _ => List.replicate 16 7) (List.replicate 16 0)
      [1, 2, 3, 4] 5 [10, 20] = .ok pt :=
  c7_decrypt_total_for_16_byte_key (fun _ _ => List.replicate 16 7)
    (List.replicate 16 0) [1, 2, 3, 4] 5 (by rfl) [10, 20]

/-- C8: decrypting with the modelled crypto.DecryptUplink the ciphertext
produced by the cooperating uplink-encryption routine under the same 16-byte
key, device address and frame counter restores the original plaintext, for
every block cipher that outputs 16-byte blocks. -/
theorem c8_encrypt_decrypt_roundtrip (E : BlockCipher)
    (hE : ∀ k b, (E k b).length = 16) (key addr : List Nat) (frameCnt : Nat)
    (pt ct : List Nat) (hk : key.length = 16)
    (henc : EncryptUplink E key addr frameCnt pt = .ok ct) :
    DecryptUplink E key addr frameCnt ct = .ok pt := by
  unfold EncryptUplink at henc
  rw [if_pos hk] at henc
  have hct : ct =
      List.zipWith (fun a b => a ^^^ b) (keystream E key addr frameCnt pt.length) pt := by
    injection henc with h
    exact h.symm
  have hkslen := keystream_length E hE key addr frameCnt pt.length
  have hlen : ct.length = pt.length := by
    rw [hct, List.length_zipWith, hkslen]
    exact Nat.min_self pt.length
  unfold DecryptUplink
  rw [if_pos hk, hlen, hct, zipWith_xor_cancel _ _ (by rw [hkslen])]

/-- C8 witness: under the constant block cipher the plaintext 10, 20 encrypts
to 13, 19 and decrypts back to 10, 20. -/
theorem c8_encrypt_decrypt_roundtrip_witness :
    DecryptUplink (fun _ _ => List.replicate 16 7) (List.replicate 16 0)
      [1, 2, 3, 4] 5 [13, 19] = .ok [10, 20] :=
  c8_encrypt_decrypt_roundtrip (fun _ _ => List.replicate 16 7)
    (fun _ _ => by rfl) (List.replicate 16 0) [1, 2, 3, 4] 5
    [10, 20] [13, 19] (by rfl) (by rfl)

/-- C9: executeDecoder converts every outcome of the interpreter session into
a plain Go return pair and never lets a panic escape: a value comes back with
a nil error, and both an interpreter error and a caught interpreter panic come
back as a nil value with a non-nil error carrying the fault's message. -/
theorem c9_no_fault_escapes (vmRun : VMRun) (script : String)
    (vars : List (String × JSValue)) :
    (∃ v, vmRun script vars = .value v ∧
      executeDecoder vmRun script vars = (some v, none)) ∨
    (∃ m, (vmRun script vars = .runErr m ∨ vmRun script vars = .panicked m) ∧
      executeDecoder vmRun script vars = (none, some m)) := by
  cases h : vmRun script vars with
  | value v =>
    exact Or.inl ⟨v, rfl, by simp [executeDecoder, executeDecoderBody, recoverToError, h]⟩
  | runErr m =>
    exact Or.inr ⟨m, Or.inl rfl, by simp [executeDecoder, executeDecoderBody, recoverToError, h]⟩
  | panicked m =>
    exact Or.inr ⟨m, Or.inr rfl, by simp [executeDecoder, executeDecoderBody, recoverToError, h]⟩

/-- C6: for every sufficiently long raw frame addressed to a registered
device, parseDataUplink extracts the fields at exactly these offsets: device
address is bytes 1 to 4 reversed, options length the low 4 bits of byte 5,
frame counter the little-endian 16-bit value of bytes 6 and 7, frame port the
byte at index 8 plus options length, and frame payload the bytes from index 9
plus options length up to but excluding the trailing 4-byte tag.  With an
observing decryption stand-in that succeeds only on the claimed address,
counter and payload, and an interpreter session that reports back its injected
bindings, the pipeline yields exactly the claimed port and payload, so every
extracted field coincides with specFields. -/
theorem c6_field_offsets (mhdr a0 a1 a2 a3 fctrl c0 c1 : Nat) (rest : List Nat)
    (devices : List Device) (dev : Device)
    (hm : matchDeviceAddr [a3, a2, a1, a0] devices = some dev)
    (hr : fctrl % 16 + 5 ≤ rest.length)
    (hk : 16 ≤ dev.appSKey.length) :
    parseDataUplink (fun _ => some "script") observeVM
      (observeDecrypt ([mhdr, a0, a1, a2, a3, fctrl, c0, c1] ++ rest)) devices
      ([mhdr, a0, a1, a2, a3, fctrl, c0, c1] ++ rest) =
      .ok (dev.name,
        some (decoderVars (specFields ([mhdr, a0, a1, a2, a3, fctrl, c0, c1] ++ rest)).fPort
          (specFields ([mhdr, a0, a1, a2, a3, fctrl, c0, c1] ++ rest)).framePayload),
        none) := by
  have hlen : ([mhdr, a0, a1, a2, a3, fctrl, c0, c1] ++ rest).length = 8 + rest.length := by
    simp
    omega
  have h1 : goSlice ([mhdr, a0, a1, a2, a3, fctrl, c0, c1] ++ rest) 1 5 =
      .ok [a0, a1, a2, a3] := by
    unfold goSlice
    rw [if_pos ⟨by omega, by rw [hlen]; omega⟩]
    rfl
  have h2 : goIndex ([mhdr, a0, a1, a2, a3, fctrl, c0, c1] ++ rest) 5 = .ok fctrl := by
    unfold goIndex
    rw [dif_pos (show 5 < ([mhdr, a0, a1, a2, a3, fctrl, c0, c1] ++ rest).length by
      rw [hlen]; omega)]
    rfl
  have h3 : goSlice ([mhdr, a0, a1, a2, a3, fctrl, c0, c1] ++ rest) 6 8 = .ok [c0, c1] := by
    unfold goSlice
    rw [if_pos ⟨by omega, by rw [hlen]; omega⟩]
    rfl
  have h4 : (if fctrl % 16 ≠ 0 then
        goSlice ([mhdr, a0, a1, a2, a3, fctrl, c0, c1] ++ rest) 8 (8 + fctrl % 16)
      else pure []) =
      GoRes.ok (if fctrl % 16 ≠ 0 then
        (([mhdr, a0, a1, a2, a3, fctrl, c0, c1] ++ rest).drop 8).take (fctrl % 16) else []) := by
    by_cases hc : fctrl % 16 = 0
    · rw [if_neg (not_not_intro hc), if_neg (not_not_intro hc)]
      rfl
    · rw [if_pos hc, if_pos hc]
      unfold goSlice
      rw [if_pos ⟨by omega, by rw [hlen]; omega⟩, Nat.add_sub_cancel_left]
  have hidx : 8 + fctrl % 16 < ([mhdr, a0, a1, a2, a3, fctrl, c0, c1] ++ rest).length := by
    rw [hlen]; omega
  have h5 : goIndex ([mhdr, a0, a1, a2, a3, fctrl, c0, c1] ++ rest) (8 + fctrl % 16) =
      .ok ((specFields ([mhdr, a0, a1, a2, a3, fctrl, c0, c1] ++ rest)).fPort) := by
    unfold goIndex
    rw [dif_pos hidx]
    simp only [specFields, List.get_eq_getElem, List.cons_append, List.getD_cons_succ,
      List.getD_cons_zero]
    rw [List.getD_eq_getElem]
  have hct : ((([mhdr, a0, a1, a2, a3, fctrl, c0, c1] ++ rest).drop (8 + fctrl % 16 + 1)).take
        (((((([mhdr, a0, a1, a2, a3, fctrl, c0, c1] ++ rest).length : Int)) - 4).toNat) -
          (8 + fctrl % 16 + 1))) =
      (specFields ([mhdr, a0, a1, a2, a3, fctrl, c0, c1] ++ rest)).framePayload := by
    simp only [specFields, List.cons_append, List.getD_cons_succ, List.getD_cons_zero]
    rw [show 8 + fctrl % 16 + 1 = 9 + fctrl % 16 by omega]
    congr 1
    omega
  have h6 : goSliceI ([mhdr, a0, a1, a2, a3, fctrl, c0, c1] ++ rest) (8 + fctrl % 16 + 1)
      ((([mhdr, a0, a1, a2, a3, fctrl, c0, c1] ++ rest).length : Int) - 4) =
      .ok ((specFields ([mhdr, a0, a1, a2, a3, fctrl, c0, c1] ++ rest)).framePayload) := by
    unfold goSliceI
    rw [if_pos ⟨by rw [hlen]; push_cast; omega, by rw [hlen]; push_cast; omega⟩]
    exact congrArg GoRes.ok hct
  have h7 : goAES128Key dev.appSKey = .ok (dev.appSKey.take 16) := by
    unfold goAES128Key
    rw [if_pos hk]
  have h8 : observeDecrypt ([mhdr, a0, a1, a2, a3, fctrl, c0, c1] ++ rest)
      (dev.appSKey.take 16) [a3, a2, a1, a0] (leUint16 [c0, c1])
      ((specFields ([mhdr, a0, a1, a2, a3, fctrl, c0, c1] ++ rest)).framePayload) =
      .ok ((specFields ([mhdr, a0, a1, a2, a3, fctrl, c0, c1] ++ rest)).framePayload) := by
    unfold observeDecrypt
    rw [if_pos ⟨rfl, rfl, rfl⟩]
  unfold parseDataUplink
  rw [h1]
  simp only [GoRes.bind_ok]
  rw [show reverseByteArray [a0, a1, a2, a3] = [a3, a2, a1, a0] from rfl, hm]
  dsimp only
  rw [h2]
  simp only [GoRes.bind_ok]
  rw [h3]
  simp only [GoRes.bind_ok]
  rw [h4]
  simp only [GoRes.bind_ok]
  rw [h5]
  simp only [GoRes.bind_ok]
  rw [h6]
  simp only [GoRes.bind_ok]
  rw [h7]
  simp only [GoRes.bind_ok]
  rw [h8]
  rfl

/-- C6 witness: a concrete 14-byte frame for the registered device, with zero
options length, counter 5, port 1 and the 1-byte payload 9. -/
theorem c6_field_offsets_witness :
    parseDataUplink (fun _ => some "script") observeVM
      (observeDecrypt ([64, 1, 2, 3, 4, 0, 5, 0] ++ [1, 9, 0, 0, 0, 0])) [demoDevice]
      ([64, 1, 2, 3, 4, 0, 5, 0] ++ [1, 9, 0, 0, 0, 0]) =
      .ok (demoDevice.name,
        some (decoderVars (specFields ([64, 1, 2, 3, 4, 0, 5, 0] ++ [1, 9, 0, 0, 0, 0])).fPort
          (specFields ([64, 1, 2, 3, 4, 0, 5, 0] ++ [1, 9, 0, 0, 0, 0])).framePayload),
        none) :=
  c6_field_offsets 64 1 2 3 4 0 5 0 [1, 9, 0, 0, 0, 0] [demoDevice] demoDevice
    (by rfl) (by decide) (by decide)
